import Mathlib

/-!
Verification of the EESSI tarball automated-ingestion lifecycle
(`scripts/automated_ingestion/eessitarball.py` and
`scripts/automated_ingestion/automated_ingestion.py`).

The Python code is shallowly embedded.  Pure string manipulation
(`str.replace(old, new, 1)`, `str.rstrip(chars)`, `os.path.basename`,
`'/'.join(path.split('/')[1:])`, `os.path.commonprefix`,
`PurePosixPath.match`, `PurePosixPath.parents`) is translated into
executable Lean functions on `String`/`List Char`.  The stateful handlers of
`EessiTarball` are translated into total functions from an oracle
environment `Env` (the behaviour of the S3 client, the GitHub API, the
local git clone and the file system — all external collaborators of the
code), an issue `World` (the open issues of the staging repository) and a
`Tarball` record to an `Except` result carrying the updated record, the
updated issue list and a trace of the side effects that were requested,
in the order the code requests them.  A Python exception that the code
does not catch is an `Except.error`.
-/

namespace EessiIngestion

/-! ## Python string primitives used by the code -/

/-- Embedding of Python `s.replace(pat, rep, 1)` on `List Char`: replace the
first (leftmost) occurrence of `pat` by `rep`; if `pat` does not occur the
list is returned unchanged; an empty `pat` matches at position 0. -/
def replaceFirstList (pat rep : List Char) : List Char → List Char
  | [] => if pat.isPrefixOf ([] : List Char) then rep else []
  | c :: cs =>
      if pat.isPrefixOf (c :: cs) then rep ++ (c :: cs).drop pat.length
      else c :: replaceFirstList pat rep cs

/-- Embedding of Python `s.replace(pat, rep, 1)` on `String`. -/
def replaceFirst (s pat rep : String) : String :=
  ⟨replaceFirstList pat.data rep.data s.data⟩

/-- Embedding of Python `s.rstrip(chars)`: drop from the right every trailing
character that occurs in `chars` (a character set, not a suffix). -/
def pyRstrip (s chars : String) : String :=
  ⟨(s.data.reverse.dropWhile (fun c => chars.data.contains c)).reverse⟩

/-- Splitting a character list on a separator character (the character-level
core of Python `s.split('/')`); `acc` holds the current field reversed. -/
def splitCharAux (sep : Char) : List Char → List Char → List (List Char)
  | [], acc => [acc.reverse]
  | c :: cs, acc =>
      if c = sep then acc.reverse :: splitCharAux sep cs []
      else splitCharAux sep cs (c :: acc)

/-- Embedding of Python `s.split('/')` (one-character separator). -/
def pySplitSlash (s : String) : List String :=
  (splitCharAux '/' s.data []).map String.mk

/-- Joining strings with a separator, Python `sep.join(l)`. -/
def joinWith (sep : String) : List String → String
  | [] => ""
  | [x] => x
  | x :: y :: xs => x ++ sep ++ joinWith sep (y :: xs)

/-- Embedding of Python `os.path.basename` for forward-slash paths. -/
def pyBasename (s : String) : String :=
  ((pySplitSlash s).getLast?).getD ""

/-- Embedding of `'/'.join(s.split('/')[1:])` (line 813 of
`eessitarball.py`): drop the first slash-separated component. -/
def dropFirstComponent (s : String) : String :=
  joinWith "/" ((pySplitSlash s).drop 1)

/-! ## Data model -/

/-- Python exceptions that the embedded code can raise (and that the code
under study does not catch). -/
inductive PyExc where
  | typeError
  | keyError
  | gitCommandError
  | unknownObjectError
  | otherError
deriving DecidableEq

/-- Outcome of `s3.copy_object` as observed by `s3_move_metadata_file`:
the call can raise, return a response with no `CopyObjectResult`, or
return a `CopyObjectResult` carrying an `ETag`. -/
inductive CopyOutcome where
  | raises
  | noResult
  | result (etag : String)
deriving DecidableEq

/-- A side effect requested from one of the two external systems of record
(S3 object store, GitHub/staging git repository) or from the host, recorded
in the order the code performs it. -/
inductive Effect where
  | downloadFile (key : String)
  | s3Copy (bucket src dst : String)
  | s3Delete (bucket key : String)
  | runInstaller (cmd : List String)
  | gitCheckout (branch : String)
  | gitMv (src dst : String)
  | gitCommit
  | gitPush (branch : String)
  | deleteRef (ref : String)
  | createPull (title head : String)
  | createIssue (title : String)
  | editComment (id : Nat) (template : String)
  | slackMessage (tarball : String)
deriving DecidableEq

/-- The approval pull request in the staging repository, as returned by
`get_approval_pr` (PyGithub pull-request object, restricted to the fields
`check_pr_status` reads). -/
structure ApprovalPr where
  number : Nat
  prState : String
  merged : Bool
deriving DecidableEq

/-- An `EessiTarball` record (the fields the handlers read).  The metadata
fields (`payload_sha256`, `sw_repo_name`, …) model `metadata_json` entries of
a record whose metadata file was downloaded and parsed; `state` is the
string-valued lifecycle state. -/
structure Tarball where
  state : String
  remote_tarball_path : String
  remote_metadata_path : String
  s3_object_etag : String
  local_tarball_path : Option String
  local_metadata_path : Option String
  metadata_raw : String
  payload_sha256 : String
  sw_repo_name : String
  sw_pr_number : String
  sw_pr_base_ref : String
  uploader : String
  tarball_name : String
deriving DecidableEq

/-- The open issues of the staging repository (their titles), the shared
mutable state behind `issue_exists` / `create_issue`. -/
abbrev World := List String

/-- Oracle behaviour of the external collaborators for one run: the S3
client, the GitHub API, the local git clone and the local file system.
Handlers are deterministic functions of this environment. -/
structure Env where
  bucket : String
  copyResult : String → String → CopyOutcome
  fsExists : String → Bool
  downloadOk : String → Bool
  localRepoExists : String → Bool
  prLookup : Option ApprovalPr
  branchExists : Bool
  createBranchOk : Bool
  overviewOutcome : Except PyExc String
  createPullOk : Bool
  swComment : Option Nat
  sha256sum : String → String
  installerExit : Int
  slackEnabled : Bool
  ingestAsRoot : Bool
  ingestionScript : String

/-- Result type of a state handler: either an uncaught Python exception, or
the updated record, the updated open-issue list and the requested effects. -/
abbrev HandlerResult := Except PyExc (Tarball × World × List Effect)

/-! ## Cross-system relocation protocol -/

/-- Embedding of `EessiTarball.s3_move_metadata_file` (lines 426-472).
Copies the metadata object from its current key to the key obtained by
replacing the first occurrence of the current state by `new_state`; on a
response whose `CopyObjectResult.ETag` equals the ETag recorded at
construction it deletes the original and updates `remote_metadata_path`;
on a raised copy, a missing copy result or a differing ETag it returns
`false` without deleting.  Result: success flag, updated record, effects. -/
def s3_move_metadata_file (env : Env) (t : Tarball) (new_state : String) :
    Bool × Tarball × List Effect :=
  let original_path := t.remote_metadata_path
  let new_state_path := replaceFirst t.remote_metadata_path t.state new_state
  match env.copyResult original_path new_state_path with
  | CopyOutcome.raises =>
      (false, t, [Effect.s3Copy env.bucket original_path new_state_path])
  | CopyOutcome.noResult =>
      (false, t, [Effect.s3Copy env.bucket original_path new_state_path])
  | CopyOutcome.result etag_new =>
      if t.s3_object_etag = etag_new then
        (true, { t with remote_metadata_path := new_state_path },
          [Effect.s3Copy env.bucket original_path new_state_path,
           Effect.s3Delete env.bucket original_path])
      else
        (false, t, [Effect.s3Copy env.bucket original_path new_state_path])

/-- Embedding of `EessiTarball.git_move_metadata_file` (lines 811-867):
checkout `branch`; if `<old_state>/<rel_path>` exists in the local clone,
`git mv` it to `<new_state>/<rel_path>`, commit and push; otherwise the
move is a no-op. -/
def git_move_metadata_file (env : Env) (t : Tarball)
    (old_state new_state branch : String) : List Effect :=
  let metadata_path := dropFirstComponent t.remote_metadata_path
  let file_path_old := old_state ++ "/" ++ metadata_path
  let file_path_new := new_state ++ "/" ++ metadata_path
  Effect.gitCheckout branch ::
    (if env.localRepoExists file_path_old then
      [Effect.gitMv file_path_old file_path_new, Effect.gitCommit,
       Effect.gitPush branch]
    else [])

/-- Embedding of `EessiTarball.update_sw_repo_comment` (lines 703-723):
edit the sponsoring PR's review comment when one is found, otherwise only
log. -/
def update_sw_repo_comment (env : Env) (template : String) : List Effect :=
  match env.swComment with
  | some cid => [Effect.editComment cid template]
  | none => []

/-- Embedding of `EessiTarball.mark_new_state` (lines 474-506): annotate the
sponsoring PR, move the metadata file in the git mirror from `old_state`
(default: the current state) to `new_state`, move it in S3, and update the
in-memory state only when the S3 move succeeded. -/
def mark_new_state (env : Env) (t : Tarball) (new_state : String)
    (old_state? : Option String) : Tarball × List Effect :=
  let commentEff := update_sw_repo_comment env ("ingest_" ++ new_state)
  let old_state := old_state?.getD t.state
  let gitEff := git_move_metadata_file env t old_state new_state "main"
  let s3r := s3_move_metadata_file env t new_state
  (if s3r.1 then { s3r.2.1 with state := new_state } else s3r.2.1,
   commentEff ++ gitEff ++ s3r.2.2)

/-! ## State handlers -/

/-- Embedding of `EessiTarball.next_state` with the `states` table of
`__init__` (lines 108-114, 294-299): `new → staged`, `staged → pr_opened`,
`approved → ingested`; `pr_opened` and every other state have no
`next_state` entry. -/
def next_state (s : String) : Option String :=
  if s = "new" then some "staged"
  else if s = "staged" then some "pr_opened"
  else if s = "approved" then some "ingested"
  else none

/-- Embedding of `EessiTarball.download` (lines 206-227, called without
`force` flags).  For each of the tarball and the metadata file: if the local
path is `None` (a previous failed download), `os.path.exists(None)` raises
`TypeError`; otherwise, if the file is not on disk, it is downloaded, and a
failed download sets the local path to `None` instead of raising. -/
def download (env : Env) (t : Tarball) :
    Except PyExc (Tarball × List Effect) :=
  match t.local_tarball_path, t.local_metadata_path with
  | none, _ => Except.error PyExc.typeError
  | some _, none => Except.error PyExc.typeError
  | some p, some q =>
      let tb : Option String × List Effect :=
        if env.fsExists p then (some p, [])
        else if env.downloadOk t.remote_tarball_path then
          (some p, [Effect.downloadFile t.remote_tarball_path])
        else (none, [Effect.downloadFile t.remote_tarball_path])
      let md : Option String × List Effect :=
        if env.fsExists q then (some q, [])
        else if env.downloadOk t.remote_metadata_path then
          (some q, [Effect.downloadFile t.remote_metadata_path])
        else (none, [Effect.downloadFile t.remote_metadata_path])
      Except.ok
        ({ t with local_tarball_path := tb.1, local_metadata_path := md.1 },
         tb.2 ++ md.2)

/-- Embedding of `EessiTarball.verify_checksum` (lines 310-316): recompute
the sha256 checksum of the local tarball and compare it with the checksum
declared in the metadata file; `sha256sum(None)` (tarball never downloaded)
raises `TypeError` from `open(None)`. -/
def verify_checksum (env : Env) (t : Tarball) : Except PyExc Bool :=
  match t.local_tarball_path with
  | none => Except.error PyExc.typeError
  | some p => Except.ok (env.sha256sum p == t.payload_sha256)

/-- Embedding of `EessiTarball.issue_exists` (lines 878-885) on the open
issues of the staging repository. -/
def issue_exists (w : World) (title : String) : Bool :=
  w.contains title

/-- Embedding of `EessiTarball.check_pr_status` (lines 137-204).  If an
approval PR is found: open PR → nothing; closed and not merged →
`mark_new_state('rejected', old_state='staged')`; otherwise (closed and
merged) → `mark_new_state('approved')`.  If no PR is found: delete the
`heads/<filename>` ref (raises if the branch does not exist) and move the
metadata file back to `staged` in S3, updating the in-memory state only on
S3 success. -/
def check_pr_status (env : Env) (w : World) (t : Tarball) : HandlerResult :=
  let git_branch := pyBasename t.remote_tarball_path
  match env.prLookup with
  | some pr =>
      if pr.prState = "open" then Except.ok (t, w, [])
      else if pr.prState = "closed" ∧ pr.merged = false then
        let r := mark_new_state env t "rejected" (some "staged")
        Except.ok (r.1, w, r.2)
      else
        let r := mark_new_state env t "approved" none
        Except.ok (r.1, w, r.2)
  | none =>
      if env.branchExists then
        let delEff := [Effect.deleteRef ("heads/" ++ git_branch)]
        let s3r := s3_move_metadata_file env t "staged"
        let t2 := if s3r.1 then { s3r.2.1 with state := "staged" } else s3r.2.1
        Except.ok (t2, w, delEff ++ s3r.2.2)
      else Except.error PyExc.unknownObjectError

/-- Embedding of `EessiTarball.ingest` (lines 318-424), the `approved`-state
handler: re-download, verify the checksum (mismatch: log and return with no
further action), run the ingestion script; on exit 0 optionally notify,
annotate the sponsoring PR, move the metadata file in git and S3 and update
the state on S3 success; on a non-zero exit create a failure issue unless an
open one with the same title exists. -/
def ingest (env : Env) (w : World) (t : Tarball) : HandlerResult :=
  match download env t with
  | Except.error e => Except.error e
  | Except.ok dl =>
    let t1 := dl.1
    match verify_checksum env t1 with
    | Except.error e => Except.error e
    | Except.ok chk =>
      if chk = false then Except.ok (t1, w, dl.2)
      else
        match t1.local_tarball_path with
        | none => Except.error PyExc.typeError
        | some p =>
          let cmd := (if env.ingestAsRoot then ["sudo"] else []) ++
            [env.ingestionScript, p, t1.sw_repo_name, t1.sw_pr_base_ref,
             t1.sw_pr_number, t1.uploader]
          let runEff := [Effect.runInstaller cmd]
          if env.installerExit = 0 then
            let slackEff :=
              if env.slackEnabled then
                [Effect.slackMessage (pyBasename t1.remote_tarball_path)]
              else []
            let commentEff := update_sw_repo_comment env "ingest_done"
            match next_state t1.state with
            | none => Except.error PyExc.typeError
            | some ns =>
              let gitEff := git_move_metadata_file env t1 t1.state ns "main"
              let s3r := s3_move_metadata_file env t1 ns
              let t2 := if s3r.1 then { s3r.2.1 with state := ns } else s3r.2.1
              Except.ok (t2, w,
                dl.2 ++ runEff ++ slackEff ++ commentEff ++ gitEff ++ s3r.2.2)
          else
            let title := "Failed to ingest " ++ t1.remote_tarball_path
            if issue_exists w title then Except.ok (t1, w, dl.2 ++ runEff)
            else
              Except.ok (t1, w ++ [title],
                dl.2 ++ runEff ++ [Effect.createIssue title])

/-- Embedding of `EessiTarball.handle_new_tarball` (lines 566-620): download
tarball and metadata (a failed download skips the tarball without touching
either system); create a branch named after the tarball (raising if it
exists), commit the metadata under the next state's directory, push; move
the metadata file in S3 and update the state on S3 success; annotate the
sponsoring PR. -/
def handle_new_tarball (env : Env) (w : World) (t : Tarball) : HandlerResult :=
  match download env t with
  | Except.error e => Except.error e
  | Except.ok dl =>
    let t1 := dl.1
    if t1.local_tarball_path = none ∨ t1.local_metadata_path = none then
      Except.ok (t1, w, dl.2)
    else
      if env.createBranchOk = false then Except.error PyExc.gitCommandError
      else
        match next_state t1.state with
        | none => Except.error PyExc.typeError
        | some ns =>
          let branch := pyBasename t.remote_tarball_path
          let createEff := [Effect.gitCheckout branch, Effect.gitCommit,
            Effect.gitPush branch]
          let s3r := s3_move_metadata_file env t1 ns
          let t2 := if s3r.1 then { s3r.2.1 with state := ns } else s3r.2.1
          let commentEff := update_sw_repo_comment env "ingest_staged"
          Except.ok (t2, w, dl.2 ++ createEff ++ s3r.2.2 ++ commentEff)

/-- The failure-issue title used by `open_approval_request` (line 770). -/
def overviewIssueTitle (t : Tarball) : String :=
  "Failed to get contents of " ++ t.remote_tarball_path

/-- Embedding of `EessiTarball.open_approval_request` (lines 725-809), the
`staged`-state handler: move the metadata file in git (branch named after
the tarball) and in S3 (the S3 result is ignored and the in-memory state is
not updated); then try to build the contents overview — an exception there
sets a flag that skips the PR creation entirely, creating no issue; with an
overview, try to open the approval PR and annotate the sponsoring PR — an
exception there creates a failure issue unless an open issue with the same
title exists.  Neither exception propagates. -/
def open_approval_request (env : Env) (w : World) (t : Tarball) :
    HandlerResult :=
  match next_state t.state with
  | none => Except.error PyExc.typeError
  | some ns =>
    let filename := pyBasename t.remote_tarball_path
    let gitEff := git_move_metadata_file env t t.state ns filename
    let s3r := s3_move_metadata_file env t ns
    let t1 := s3r.2.1
    match env.overviewOutcome with
    | Except.error _ => Except.ok (t1, w, gitEff ++ s3r.2.2)
    | Except.ok _ =>
      if env.createPullOk then
        Except.ok (t1, w,
          gitEff ++ s3r.2.2 ++
            [Effect.createPull ("Ingest " ++ filename) filename] ++
            update_sw_repo_comment env "ingest_pr_opened")
      else
        let title := overviewIssueTitle t
        if (w.filter (fun i => i = title)).length = 0 then
          Except.ok (t1, w ++ [title],
            gitEff ++ s3r.2.2 ++ [Effect.createIssue title])
        else Except.ok (t1, w, gitEff ++ s3r.2.2)

/-- Embedding of `EessiTarball.run_handler` (lines 301-308) with the
`states` table of `__init__`: a falsy (unset) state logs a warning and
returns; a state with a registered handler dispatches to it; any other
state raises `KeyError` from the `self.states[self.state]` lookup. -/
def run_handler (env : Env) (w : World) (t : Tarball) : HandlerResult :=
  if t.state = "" then Except.ok (t, w, [])
  else if t.state = "new" then handle_new_tarball env w t
  else if t.state = "staged" then open_approval_request env w t
  else if t.state = "pr_opened" then check_pr_status env w t
  else if t.state = "approved" then ingest env w t
  else Except.error PyExc.keyError

/-! ## Contents overview (`get_contents_overview`, lines 247-292) -/

/-- Kind of a tar archive member, as distinguished by `TarInfo.isdir()` /
`TarInfo.isfile()` (a member can be neither, e.g. a symlink). -/
inductive TarKind where
  | dir
  | file
  | link
deriving DecidableEq

/-- One member of the tar archive: its path and its kind. -/
structure TarMember where
  path : String
  kind : TarKind
deriving DecidableEq

/-- Lexicographic (code point) order on strings, Python's string `<=`. -/
def lexLe : List Char → List Char → Bool
  | [], _ => true
  | _ :: _, [] => false
  | a :: as, b :: bs =>
      if a.val < b.val then true
      else if b.val < a.val then false
      else lexLe as bs

/-- Embedding of Python `sorted` on a list of strings (insertion sort; the
result is the unique ascending reordering, which is what `sorted` returns). -/
def insertSorted (x : String) : List String → List String
  | [] => [x]
  | y :: ys => if lexLe x.data y.data then x :: y :: ys else y :: insertSorted x ys

/-- Embedding of Python `sorted` for lists of strings. -/
def pySorted (l : List String) : List String :=
  l.foldr insertSorted []

/-- Character-wise common prefix of two strings. -/
def commonChars : List Char → List Char → List Char
  | x :: xs, y :: ys => if x = y then x :: commonChars xs ys else []
  | _, _ => []

/-- Embedding of `os.path.commonprefix`: the longest character-wise common
leading substring of all the given paths (empty for an empty list). -/
def osCommonLead : List String → String
  | [] => ""
  | p :: ps => ⟨ps.foldl (fun acc s => commonChars acc s.data) p.data⟩

/-- Embedding of `os.path.join(a, b)` for the relative forward-slash paths
this code joins. -/
def osPathJoin (a b : String) : String :=
  if a = "" then b
  else if ['/'].isSuffixOf a.data then a ++ b
  else a ++ "/" ++ b

/-- Components of a `PurePosixPath`: split on `/`, dropping empty and `.`
components. -/
def pathParts (s : String) : List String :=
  (pySplitSlash s).filter (fun c => c ≠ "" ∧ c ≠ ".")

/-- Glob match of one `fnmatch` pattern component against one path
component; the patterns this code uses contain only literal characters and
`*` (which matches any, possibly empty, character sequence). -/
def globMatch : List Char → List Char → Bool
  | [], [] => true
  | '*' :: ps, [] => globMatch ps []
  | '*' :: ps, c :: cs => globMatch ps (c :: cs) || globMatch ('*' :: ps) cs
  | p :: ps, c :: cs => p = c && globMatch ps cs
  | _ :: _, [] => false
  | [], _ :: _ => false
termination_by ps cs => ps.length + cs.length
decreasing_by all_goals simp_arith

/-- Embedding of `PurePosixPath(path).match(pattern)` for the relative
patterns this code builds: the pattern's components must match the
rightmost components of the path. -/
def ppMatch (path pattern : String) : Bool :=
  let pp := pathParts pattern
  let sp := pathParts path
  decide (pp.length ≤ sp.length) &&
    ((sp.drop (sp.length - pp.length)).zip pp).all
      (fun cp => globMatch cp.2.data cp.1.data)

/-- Embedding of `PurePosixPath(anc) in PurePosixPath(path).parents` where
`anc` is given by its components: `anc` must be a proper leading component
sequence of `path`. -/
def inPathParents (ancParts : List String) (path : String) : Bool :=
  let p := pathParts path
  decide (ancParts.length < p.length) &&
    decide (p.take ancParts.length = ancParts)

/-- Description line of the full listing (line 256). -/
def fullListingDesc : String :=
  "Full listing of the contents of the tarball:"

/-- Description line of the summarized overview (line 259). -/
def summaryDesc : String :=
  "Summarized overview of the contents of the tarball:"

/-- The truncation notice appended at line 291. -/
def truncationNotice : String :=
  "\n\nWARNING: output exceeded the maximum length and was truncated!\n```"

/-- The grouped members list of the summarized branch (lines 260-280):
software install directories, module files, and everything outside the
`software` and `modules` trees, sorted. -/
def summarizedList (members : List TarMember) : List String :=
  let paths := pySorted (members.map TarMember.path)
  let pre := osCommonLead paths
  let swPat := osPathJoin (osPathJoin (osPathJoin pre "software") "*") "*"
  let modPat :=
    osPathJoin (osPathJoin (osPathJoin (osPathJoin pre "modules") "*") "*")
      "*.lua"
  let swdirs := (members.filter
      (fun m => m.kind = TarKind.dir ∧ ppMatch m.path swPat)).map TarMember.path
  let modfiles := (members.filter
      (fun m => m.kind = TarKind.file ∧ ppMatch m.path modPat)).map
      TarMember.path
  let swAnc := pathParts pre ++ ["software"]
  let modAnc := pathParts pre ++ ["modules"]
  let other := (members.filter
      (fun m => inPathParents swAnc m.path = false ∧
        inPathParents modAnc m.path = false)).map TarMember.path
  pySorted (swdirs ++ modfiles ++ other)

/-- The overview text assembled at lines 282-287 from the member count, the
tarball URL, the description line and the members list. -/
def overviewText (url : String) (n : Nat) (desc : String)
    (members_list : List String) : String :=
  let tar_members := joinWith "\n" members_list
  "Total number of items in the tarball: " ++ toString n ++
    "\nURL to the tarball: " ++ url ++
    "\n" ++ desc ++ "\n" ++
    "```\n" ++ tar_members ++ "\n```"

/-- The overview before truncation: fewer than 100 members produce the full
sorted listing, 100 or more the grouped summary (lines 255-280). -/
def assembledOverview (url : String) (members : List TarMember) : String :=
  let n := members.length
  if n < 100 then
    overviewText url n fullListingDesc (pySorted (members.map TarMember.path))
  else
    overviewText url n summaryDesc (summarizedList members)

/-- Embedding of `EessiTarball.get_contents_overview` (lines 247-292): the
assembled overview, cut at 60000 characters with the truncation notice
appended when it is longer than 60000 characters. -/
def get_contents_overview (url : String) (members : List TarMember) : String :=
  let overview := assembledOverview url members
  if overview.length > 60000 then
    String.mk (overview.data.take 60000) ++ truncationNotice
  else overview

/-! ## Run driver payload-path derivation (`automated_ingestion.py`) -/

/-- Embedding of the candidate payload path derivation of `main`
(`automated_ingestion.py` lines 207 and 215):
`obj['Key'].replace(state, 'tarballs', 1).rstrip(metadata_ext)` — the first
occurrence of the state name is replaced by `tarballs` and then every
trailing character belonging to the extension's character set is stripped. -/
def tarball_path_of_key (key state metadata_ext : String) : String :=
  pyRstrip (replaceFirst key state "tarballs") metadata_ext

/-- The alternative reading of the derivation stated by the claim for
comparison (a refinement reference, not code of the repository): remove the
metadata extension as a whole suffix after the state substitution. -/
def tarball_path_suffix_removed (key state metadata_ext : String) : String :=
  let r := replaceFirst key state "tarballs"
  if metadata_ext.data.isSuffixOf r.data then
    String.mk (r.data.take (r.data.length - metadata_ext.data.length))
  else r

/-! ## Record construction (`EessiTarball.__init__`, lines 30-135) -/

/-- The metadata fields parsed by `__init__` when the metadata file is
present (lines 79-95). -/
structure ParsedMetadata where
  raw : String
  repo : String
  pr : Int
  prCommentId : Option Int
  filename : String
deriving DecidableEq

/-- Oracle environment of the construction path of `__init__` that handles
the metadata file: whether a local copy is already cached, whether the S3
download succeeds, and the parsed content when the file is present. -/
structure InitEnv where
  metadataCached : Bool
  metadataDownloadOk : Bool
  parsed : ParsedMetadata
deriving DecidableEq

/-- The metadata-derived fields of a freshly constructed record. -/
structure InitFields where
  metadata_raw : String
  metadata_json_empty : Bool
  sw_repo_name : String
  sw_pr_number : Int
  sw_pr_comment_id : Int
  tarball_name : String
deriving DecidableEq

/-- Embedding of `os.path.exists` applied to `self.local_metadata_path`
(line 77): `os.path.exists(None)` raises `TypeError` (the `None` does not
belong to the `(OSError, ValueError)` tuple `genericpath.exists`
suppresses); on a string path it reports whether the file is on disk. -/
def os_path_exists_opt (present : Bool) : Option String → Except PyExc Bool
  | none => Except.error PyExc.typeError
  | some _ => Except.ok present

/-- Embedding of the metadata part of `EessiTarball.__init__` (lines 56-101):
defaults are set (empty strings, `-1` identifiers, empty parsed metadata),
`download()` is run (a failed metadata download nulls the local path), and
then `os.path.exists(self.local_metadata_path)` decides between parsing the
file and logging a warning while keeping the defaults. -/
def eessi_tarball_init (env : InitEnv) (mdPath : String) :
    Except PyExc InitFields :=
  let defaults : InitFields :=
    { metadata_raw := "", metadata_json_empty := true, sw_repo_name := "",
      sw_pr_number := -1, sw_pr_comment_id := -1, tarball_name := "" }
  let localPath : Option String :=
    if env.metadataCached then some mdPath
    else if env.metadataDownloadOk then some mdPath
    else none
  let present : Bool := env.metadataCached || env.metadataDownloadOk
  match os_path_exists_opt present localPath with
  | Except.error e => Except.error e
  | Except.ok true =>
      Except.ok
        { metadata_raw := env.parsed.raw, metadata_json_empty := false,
          sw_repo_name := env.parsed.repo, sw_pr_number := env.parsed.pr,
          sw_pr_comment_id := (env.parsed.prCommentId).getD (-1),
          tarball_name := env.parsed.filename }
  | Except.ok false => Except.ok defaults

/-! ## Auxiliary observers and concrete fixtures -/

/-- Position of a state in the forward lifecycle order
`new → staged → pr_opened → approved → {ingested, rejected}`; the two
terminal states (and anything else) rank last. -/
def stateRank : String → Nat
  | "new" => 0
  | "staged" => 1
  | "pr_opened" => 2
  | "approved" => 3
  | _ => 4

/-- The open-issue list of a handler result that did not raise. -/
def okWorld : HandlerResult → Option World
  | Except.ok r => some r.2.1
  | Except.error _ => none

/-- Is this effect an invocation of the external ingestion script? -/
def isInstallerCall : Effect → Bool
  | Effect.runInstaller _ => true
  | _ => false

/-- Is this effect part of a metadata relocation (S3 copy or delete, git
file move)? -/
def isRelocationEffect : Effect → Bool
  | Effect.s3Copy _ _ _ => true
  | Effect.s3Delete _ _ => true
  | Effect.gitMv _ _ => true
  | _ => false

/-- A concrete environment for evaluating the handlers: all external calls
succeed except the S3 copy (which raises) and the installer (exit 1). -/
def baseEnv : Env := {
  bucket := "eessi-staging"
  copyResult := fun _ _ => CopyOutcome.raises
  fsExists := fun _ => true
  downloadOk := fun _ => true
  localRepoExists := fun _ => false
  prLookup := none
  branchExists := true
  createBranchOk := true
  overviewOutcome := Except.ok "contents"
  createPullOk := true
  swComment := some 1
  sha256sum := fun _ => "abc"
  installerExit := 1
  slackEnabled := false
  ingestAsRoot := true
  ingestionScript := "ingest.sh"
}

/-- A concrete record in the `approved` state with downloaded files. -/
def tBase : Tarball := {
  state := "approved"
  remote_tarball_path := "tarballs/2023.06/foo.tgz"
  remote_metadata_path := "approved/2023.06/foo.tgz.meta.txt"
  s3_object_etag := "etag0"
  local_tarball_path := some "/download/foo.tgz"
  local_metadata_path := some "/download/foo.tgz.meta.txt"
  metadata_raw := "raw"
  payload_sha256 := "sha-declared"
  sw_repo_name := "EESSI/software-layer"
  sw_pr_number := "42"
  sw_pr_base_ref := "main"
  uploader := "bot"
  tarball_name := "foo.tgz"
}

/-- The same record in the `pr_opened` state. -/
def tPr : Tarball :=
  { tBase with
    state := "pr_opened"
    remote_metadata_path := "pr_opened/2023.06/foo.tgz.meta.txt" }

/-- The same record in the `staged` state. -/
def tStaged : Tarball :=
  { tBase with
    state := "staged"
    remote_metadata_path := "staged/2023.06/foo.tgz.meta.txt" }

/-- The same record with an unknown (`rejected`) state. -/
def tRejected : Tarball := { tBase with state := "rejected" }

/-- The same record with an unset (falsy) state. -/
def tUnset : Tarball := { tBase with state := "" }

/-- An S3 client behaving like the real one: copying an object onto a
different key succeeds and returns the source's ETag; copying an object
onto its own key (no metadata change) is rejected with an error. -/
def envS3Real : Env :=
  { baseEnv with
    copyResult := fun src dst =>
      if src = dst then CopyOutcome.raises else CopyOutcome.result "etag0" }

/-- An environment whose S3 copy always succeeds with the recorded ETag
(and whose PR lookup finds nothing, the self-healing situation). -/
def envHeal : Env :=
  { baseEnv with copyResult := fun _ _ => CopyOutcome.result "etag0" }

/-- An environment where building the contents overview raises. -/
def envOverviewRaises : Env :=
  { baseEnv with overviewOutcome := Except.error PyExc.otherError }

/-- An environment where opening the approval pull request raises. -/
def envPullFail : Env := { baseEnv with createPullOk := false }

/-- An environment whose approval PR lookup finds an open PR. -/
def envPrOpen : Env := { baseEnv with prLookup := some ⟨7, "open", false⟩ }

/-- An environment whose approval PR lookup finds a closed, unmerged PR and
whose S3 copy succeeds with the recorded ETag. -/
def envPrRejected : Env :=
  { baseEnv with
    prLookup := some ⟨7, "closed", false⟩
    copyResult := fun _ _ => CopyOutcome.result "etag0" }

/-- An environment whose approval PR lookup finds a closed, merged PR and
whose S3 copy succeeds with the recorded ETag. -/
def envPrMerged : Env :=
  { baseEnv with
    prLookup := some ⟨7, "closed", true⟩
    copyResult := fun _ _ => CopyOutcome.result "etag0" }

/-- An archive listing with 99 entries. -/
def ms99 : List TarMember :=
  (List.range 99).map (fun i => ⟨"f" ++ toString i, TarKind.file⟩)

/-- An archive listing with 100 entries. -/
def ms100 : List TarMember :=
  (List.range 100).map (fun i => ⟨"f" ++ toString i, TarKind.file⟩)

/-- An archive listing with a single entry whose path is 60100 characters
long, so the assembled overview exceeds the 60000-character cap. -/
def msLong : List TarMember :=
  [⟨String.mk (List.replicate 60100 'a'), TarKind.file⟩]

/-! ## Helper lemmas -/

/-- Replacing the first occurrence of `pat` by `pat` itself changes nothing
(the list version). -/
theorem replaceFirstList_self (pat : List Char) (l : List Char) :
    replaceFirstList pat pat l = l := by
  induction l with
  | nil =>
      by_cases h : pat.isPrefixOf ([] : List Char)
      · have hpat : pat = [] := by
          cases pat with
          | nil => rfl
          | cons a as => simp [List.isPrefixOf] at h
        simp [replaceFirstList, h, hpat]
      · simp [replaceFirstList, h]
  | cons c cs ih =>
      by_cases h : pat.isPrefixOf (c :: cs)
      · have hpre : pat <+: (c :: cs) := by
          exact (List.isPrefixOf_iff_prefix).mp h
        obtain ⟨t, ht⟩ := hpre
        have hdrop : (c :: cs).drop pat.length = t := by
          rw [← ht]
          simp
        simp [replaceFirstList, h, hdrop, ht]
      · simp [replaceFirstList, h, ih]

/-- Replacing the first occurrence of `pat` by `pat` itself changes nothing. -/
theorem replaceFirst_self (s pat : String) : replaceFirst s pat pat = s := by
  cases s with
  | mk data => simp [replaceFirst, replaceFirstList_self]

/-- `s3_move_metadata_file` never changes the in-memory `state` field. -/
theorem s3_move_state (env : Env) (t : Tarball) (ns : String) :
    ((s3_move_metadata_file env t ns).2.1).state = t.state := by
  unfold s3_move_metadata_file
  cases h : env.copyResult t.remote_metadata_path
      (replaceFirst t.remote_metadata_path t.state ns) with
  | raises => simp [h]
  | noResult => simp [h]
  | result etag => by_cases h2 : t.s3_object_etag = etag <;> simp [h, h2]

/-- `s3_move_metadata_file` never changes the remote tarball path. -/
theorem s3_move_rtp (env : Env) (t : Tarball) (ns : String) :
    ((s3_move_metadata_file env t ns).2.1).remote_tarball_path =
      t.remote_tarball_path := by
  unfold s3_move_metadata_file
  cases h : env.copyResult t.remote_metadata_path
      (replaceFirst t.remote_metadata_path t.state ns) with
  | raises => simp [h]
  | noResult => simp [h]
  | result etag => by_cases h2 : t.s3_object_etag = etag <;> simp [h, h2]

/-- `mark_new_state` sets the state to `new_state` or leaves it unchanged. -/
theorem mark_new_state_state (env : Env) (t : Tarball) (ns : String)
    (o : Option String) :
    ((mark_new_state env t ns o).1).state = ns ∨
      ((mark_new_state env t ns o).1).state = t.state := by
  unfold mark_new_state
  by_cases h : (s3_move_metadata_file env t ns).1
  · left
    simp [h]
  · right
    simp [h, s3_move_state]

/-! ## Claim theorems -/

/-- C10: The Run Driver derives the candidate payload path by replacing the
first occurrence of the state name with `tarballs` and then applying
Python's `rstrip` with the metadata extension — stripping trailing
characters belonging to the extension's character set, not removing the
extension as a whole suffix.  Consequently, for a key whose payload
filename ends in a character of the extension (here `foo.t` with extension
`.meta.txt`), the derived path is strictly shorter than the key with the
extension suffix removed. -/
theorem tarball_key_rstrip_semantics :
    (∀ key st ext, tarball_path_of_key key st ext =
      pyRstrip (replaceFirst key st "tarballs") ext) ∧
    tarball_path_of_key "staged/2023.06/foo.t.meta.txt" "staged" ".meta.txt" =
      "tarballs/2023.06/foo" ∧
    tarball_path_suffix_removed "staged/2023.06/foo.t.meta.txt" "staged"
        ".meta.txt" = "tarballs/2023.06/foo.t" ∧
    (tarball_path_of_key "staged/2023.06/foo.t.meta.txt" "staged"
        ".meta.txt").length <
      (tarball_path_suffix_removed "staged/2023.06/foo.t.meta.txt" "staged"
        ".meta.txt").length :=
  ⟨fun _ _ _ => rfl, by decide, by decide, by decide⟩

/-- C5: the claim (from the spec's guarantee that `EessiTarball.__init__`
never raises for a missing metadata file and leaves the metadata-derived
fields at their safe defaults) fails on the code: when the metadata file
is absent and its download fails, `download()` sets
`self.local_metadata_path = None` and the subsequent
`os.path.exists(self.local_metadata_path)` at line 77 raises `TypeError`,
so construction raises instead of keeping the defaults.  The second
conjunct shows the normal path (download succeeds) for contrast. -/
theorem init_metadata_raises_on_missing_metadata :
    eessi_tarball_init
        { metadataCached := false, metadataDownloadOk := false,
          parsed := ⟨"", "", 0, none, ""⟩ } "/download/foo.tgz.meta.txt" =
      Except.error PyExc.typeError ∧
    eessi_tarball_init
        { metadataCached := false, metadataDownloadOk := true,
          parsed := ⟨"raw", "EESSI/software-layer", 42, some 7, "foo.tgz"⟩ }
        "/download/foo.tgz.meta.txt" =
      Except.ok
        { metadata_raw := "raw", metadata_json_empty := false,
          sw_repo_name := "EESSI/software-layer", sw_pr_number := 42,
          sw_pr_comment_id := 7, tarball_name := "foo.tgz" } :=
  ⟨rfl, rfl⟩

/-- C9 counterexample: dispatching a record whose state is `rejected` — a
set state without a registered handler — raises `KeyError` from the
`self.states[self.state]` lookup instead of being a logged no-op, so the
claim that an unknown state is a warning-only no-op that raises no
exception is false on the code. -/
theorem run_handler_rejected_state_raises :
    run_handler baseEnv [] tRejected = Except.error PyExc.keyError := rfl

/-- C9 (amended): dispatch with an unset (falsy) state is a no-op that only
logs a warning and never infers a different state; but a non-empty state
without a registered handler (`rejected`, `ingested`, or any other string)
raises `KeyError` from the handler-table lookup rather than being a logged
no-op. -/
theorem run_handler_dispatch_behavior (env : Env) (w : World) (t : Tarball) :
    (t.state = "" → run_handler env w t = Except.ok (t, w, [])) ∧
    (t.state ≠ "" → t.state ≠ "new" → t.state ≠ "staged" →
      t.state ≠ "pr_opened" → t.state ≠ "approved" →
      run_handler env w t = Except.error PyExc.keyError) := by
  constructor
  · intro h
    simp [run_handler, h]
  · intro h0 h1 h2 h3 h4
    simp [run_handler, h0, h1, h2, h3, h4]

/-- C9 witness: the dispatch theorem applied to a concrete unset-state
record and a concrete `rejected`-state record. -/
theorem run_handler_dispatch_behavior_witness :
    run_handler baseEnv [] tUnset = Except.ok (tUnset, [], []) ∧
    run_handler baseEnv [] { tBase with state := "ingested" } =
      Except.error PyExc.keyError :=
  ⟨(run_handler_dispatch_behavior baseEnv [] tUnset).1 rfl,
   (run_handler_dispatch_behavior baseEnv []
      { tBase with state := "ingested" }).2
     (by decide) (by decide) (by decide) (by decide) (by decide)⟩

/-- C2: whenever the S3 copy raises, returns no `CopyObjectResult`, or
returns an ETag differing from the one recorded at record construction,
`s3_move_metadata_file` returns failure, leaves the record unchanged and
never deletes the original object; and `mark_new_state`, the caller, then
neither updates the in-memory state nor the metadata path.  (The original
is therefore deleted only after a copy result whose ETag matches the
recorded one.) -/
theorem s3_move_delete_only_on_etag_match (env : Env) (t : Tarball)
    (ns : String) (old? : Option String)
    (h : env.copyResult t.remote_metadata_path
        (replaceFirst t.remote_metadata_path t.state ns) ≠
      CopyOutcome.result t.s3_object_etag) :
    (s3_move_metadata_file env t ns).1 = false ∧
    (s3_move_metadata_file env t ns).2.1 = t ∧
    (∀ b k, Effect.s3Delete b k ∉ (s3_move_metadata_file env t ns).2.2) ∧
    (mark_new_state env t ns old?).1.state = t.state ∧
    (mark_new_state env t ns old?).1.remote_metadata_path =
      t.remote_metadata_path := by
  cases hc : env.copyResult t.remote_metadata_path
      (replaceFirst t.remote_metadata_path t.state ns) with
  | raises => simp [s3_move_metadata_file, mark_new_state, hc]
  | noResult => simp [s3_move_metadata_file, mark_new_state, hc]
  | result etag =>
      have hne : ¬ (t.s3_object_etag = etag) := by
        intro he
        rw [he] at h
        exact h hc
      simp [s3_move_metadata_file, mark_new_state, hc, hne]

/-- C2 witness: the checked-delete theorem applied to a concrete record and
an environment whose copy raises. -/
theorem s3_move_delete_only_on_etag_match_witness :
    (s3_move_metadata_file baseEnv tBase "ingested").1 = false ∧
    (s3_move_metadata_file baseEnv tBase "ingested").2.1 = tBase ∧
    (∀ b k, Effect.s3Delete b k ∉
      (s3_move_metadata_file baseEnv tBase "ingested").2.2) ∧
    (mark_new_state baseEnv tBase "ingested" none).1.state = tBase.state ∧
    (mark_new_state baseEnv tBase "ingested" none).1.remote_metadata_path =
      tBase.remote_metadata_path :=
  s3_move_delete_only_on_etag_match baseEnv tBase "ingested" none (by decide)

/-- C1: for an `approved` record whose downloaded payload's recomputed
sha256 differs from the checksum declared in the metadata, the
`approved`-state handler `ingest` returns the record unchanged (state still
`approved`) with an empty effect trace: the external installer is never
invoked and no relocation of the metadata object is performed in either
system. -/
theorem ingest_checksum_gate (env : Env) (w : World) (t : Tarball)
    (p q : String)
    (hp : t.local_tarball_path = some p)
    (hq : t.local_metadata_path = some q)
    (hfp : env.fsExists p = true)
    (hfq : env.fsExists q = true)
    (hstate : t.state = "approved")
    (hmismatch : env.sha256sum p ≠ t.payload_sha256) :
    ingest env w t = Except.ok (t, w, []) := by
  obtain ⟨st, rtp, rmp, etag, ltp, lmp, mr, ps, srn, spn, spb, up, tn⟩ := t
  simp only at hp hq hmismatch
  subst hp
  subst hq
  simp [ingest, download, verify_checksum, hfp, hfq, hmismatch]

/-- C1 witness: the checksum gate applied to a concrete approved record
whose declared checksum differs from the recomputed one. -/
theorem ingest_checksum_gate_witness :
    ingest baseEnv [] tBase = Except.ok (tBase, [], []) :=
  ingest_checksum_gate baseEnv [] tBase "/download/foo.tgz"
    "/download/foo.tgz.meta.txt" rfl rfl rfl rfl rfl (by decide)

/-- C3: for a `pr_opened` record whose approval PR is found,
`check_pr_status` maps the PR's disposition as: an open PR changes nothing
and requests no effect; a closed unmerged PR transitions the record to
`rejected`; a closed merged PR transitions it to `approved` (the
transitions assume the S3 copy confirms with the recorded ETag, the success
path of the relocation). -/
theorem check_pr_status_disposition (env : Env) (w : World) (t : Tarball)
    (pr : ApprovalPr) (hpr : env.prLookup = some pr)
    (hstate : t.state = "pr_opened") :
    (pr.prState = "open" → check_pr_status env w t = Except.ok (t, w, [])) ∧
    (pr.prState = "closed" → pr.merged = false →
      env.copyResult t.remote_metadata_path
          (replaceFirst t.remote_metadata_path t.state "rejected") =
        CopyOutcome.result t.s3_object_etag →
      ∃ t' tr, check_pr_status env w t = Except.ok (t', w, tr) ∧
        t'.state = "rejected") ∧
    (pr.prState = "closed" → pr.merged = true →
      env.copyResult t.remote_metadata_path
          (replaceFirst t.remote_metadata_path t.state "approved") =
        CopyOutcome.result t.s3_object_etag →
      ∃ t' tr, check_pr_status env w t = Except.ok (t', w, tr) ∧
        t'.state = "approved") := by
  refine ⟨?_, ?_, ?_⟩
  · intro hopen
    simp [check_pr_status, hpr, hopen]
  · intro hclosed hunmerged hcopy
    refine ⟨(mark_new_state env t "rejected" (some "staged")).1,
      (mark_new_state env t "rejected" (some "staged")).2, ?_, ?_⟩
    · simp [check_pr_status, hpr, hclosed, hunmerged]
    · simp [mark_new_state, s3_move_metadata_file, hcopy]
  · intro hclosed hmerged hcopy
    refine ⟨(mark_new_state env t "approved" none).1,
      (mark_new_state env t "approved" none).2, ?_, ?_⟩
    · simp [check_pr_status, hpr, hclosed, hmerged]
    · simp [mark_new_state, s3_move_metadata_file, hcopy]

/-- C3 witness: the disposition mapping applied to concrete environments
holding an open PR, a closed unmerged PR and a closed merged PR. -/
theorem check_pr_status_disposition_witness :
    check_pr_status envPrOpen [] tPr = Except.ok (tPr, [], []) ∧
    (∃ t' tr, check_pr_status envPrRejected [] tPr =
        Except.ok (t', [], tr) ∧ t'.state = "rejected") ∧
    (∃ t' tr, check_pr_status envPrMerged [] tPr =
        Except.ok (t', [], tr) ∧ t'.state = "approved") :=
  ⟨(check_pr_status_disposition envPrOpen [] tPr ⟨7, "open", false⟩
      rfl rfl).1 rfl,
   (check_pr_status_disposition envPrRejected [] tPr ⟨7, "closed", false⟩
      rfl rfl).2.1 rfl rfl rfl,
   (check_pr_status_disposition envPrMerged [] tPr ⟨7, "closed", true⟩
      rfl rfl).2.2 rfl rfl rfl⟩

/-- `download` never changes the in-memory `state` field. -/
theorem download_state (env : Env) (t : Tarball) (r : Tarball × List Effect)
    (h : download env t = Except.ok r) : r.1.state = t.state := by
  unfold download at h
  cases hp : t.local_tarball_path with
  | none =>
      rw [hp] at h
      simp at h
  | some p =>
      cases hq : t.local_metadata_path with
      | none =>
          rw [hp, hq] at h
          simp at h
      | some q =>
          rw [hp, hq] at h
          dsimp only at h
          injection h with h1
          subst h1
          rfl

/-- A successful `handle_new_tarball` leaves the state unchanged or advances
it to the `next_state` of the current state. -/
theorem handle_new_tarball_state (env : Env) (w : World) (t : Tarball)
    (t' : Tarball) (w' : World) (tr : List Effect)
    (h : handle_new_tarball env w t = Except.ok (t', w', tr)) :
    t'.state = t.state ∨ next_state t.state = some t'.state := by
  unfold handle_new_tarball at h
  cases hdl : download env t with
  | error e =>
      rw [hdl] at h
      simp at h
  | ok dl =>
      rw [hdl] at h
      dsimp only at h
      have hst := download_state env t dl hdl
      by_cases hskip : dl.1.local_tarball_path = none ∨
          dl.1.local_metadata_path = none
      · rw [if_pos hskip] at h
        simp only [Except.ok.injEq, Prod.mk.injEq] at h
        obtain ⟨h1, -, -⟩ := h
        left
        rw [← h1]
        exact hst
      · rw [if_neg hskip] at h
        by_cases hbr : env.createBranchOk = false
        · rw [if_pos hbr] at h
          simp at h
        · rw [if_neg hbr] at h
          cases hns : next_state dl.1.state with
          | none =>
              rw [hns] at h
              simp at h
          | some ns =>
              rw [hns] at h
              simp only [Except.ok.injEq, Prod.mk.injEq] at h
              obtain ⟨h1, -, -⟩ := h
              rw [hst] at hns
              by_cases hok : (s3_move_metadata_file env dl.1 ns).1 = true
              · right
                rw [hns]
                simp only [hok, if_true] at h1
                rw [← h1]
              · left
                simp [hok] at h1
                rw [← h1, s3_move_state]
                exact hst

/-- A successful `ingest` leaves the state unchanged or advances it to the
`next_state` of the current state. -/
theorem ingest_state (env : Env) (w : World) (t : Tarball)
    (t' : Tarball) (w' : World) (tr : List Effect)
    (h : ingest env w t = Except.ok (t', w', tr)) :
    t'.state = t.state ∨ next_state t.state = some t'.state := by
  unfold ingest at h
  cases hdl : download env t with
  | error e =>
      rw [hdl] at h
      simp at h
  | ok dl =>
      rw [hdl] at h
      dsimp only at h
      have hst := download_state env t dl hdl
      cases hv : verify_checksum env dl.1 with
      | error e =>
          rw [hv] at h
          simp at h
      | ok chk =>
          rw [hv] at h
          dsimp only at h
          by_cases hchk : chk = false
          · rw [if_pos hchk] at h
            simp only [Except.ok.injEq, Prod.mk.injEq] at h
            obtain ⟨h1, -, -⟩ := h
            left
            rw [← h1]
            exact hst
          · rw [if_neg hchk] at h
            cases hp : dl.1.local_tarball_path with
            | none =>
                rw [hp] at h
                simp at h
            | some p =>
                rw [hp] at h
                dsimp only at h
                by_cases hexit : env.installerExit = 0
                · rw [if_pos hexit] at h
                  cases hns : next_state dl.1.state with
                  | none =>
                      rw [hns] at h
                      simp at h
                  | some ns =>
                      rw [hns] at h
                      simp only [Except.ok.injEq, Prod.mk.injEq] at h
                      obtain ⟨h1, -, -⟩ := h
                      rw [hst] at hns
                      by_cases hok : (s3_move_metadata_file env dl.1 ns).1 = true
                      · right
                        rw [hns]
                        simp only [hok, if_true] at h1
                        rw [← h1]
                      · left
                        simp [hok] at h1
                        rw [← h1, s3_move_state]
                        exact hst
                · rw [if_neg hexit] at h
                  by_cases hiss :
                      issue_exists w ("Failed to ingest " ++
                        dl.1.remote_tarball_path) = true
                  · rw [if_pos hiss] at h
                    simp only [Except.ok.injEq, Prod.mk.injEq] at h
                    obtain ⟨h1, -, -⟩ := h
                    left
                    rw [← h1]
                    exact hst
                  · rw [if_neg hiss] at h
                    simp only [Except.ok.injEq, Prod.mk.injEq] at h
                    obtain ⟨h1, -, -⟩ := h
                    left
                    rw [← h1]
                    exact hst

/-- A successful `open_approval_request` never changes the in-memory state
(the code discards the result of the S3 move and does not assign
`self.state`). -/
theorem open_approval_request_state (env : Env) (w : World) (t : Tarball)
    (t' : Tarball) (w' : World) (tr : List Effect)
    (h : open_approval_request env w t = Except.ok (t', w', tr)) :
    t'.state = t.state := by
  unfold open_approval_request at h
  cases hns : next_state t.state with
  | none =>
      rw [hns] at h
      simp at h
  | some ns =>
      rw [hns] at h
      dsimp only at h
      cases hov : env.overviewOutcome with
      | error e =>
          rw [hov] at h
          simp only [Except.ok.injEq, Prod.mk.injEq] at h
          obtain ⟨h1, -, -⟩ := h
          rw [← h1, s3_move_state]
      | ok s =>
          rw [hov] at h
          dsimp only at h
          by_cases hcp : env.createPullOk = true
          · rw [if_pos hcp] at h
            simp only [Except.ok.injEq, Prod.mk.injEq] at h
            obtain ⟨h1, -, -⟩ := h
            rw [← h1, s3_move_state]
          · rw [if_neg hcp] at h
            by_cases hf :
                (w.filter (fun i => i = overviewIssueTitle t)).length = 0
            · rw [if_pos hf] at h
              simp only [Except.ok.injEq, Prod.mk.injEq] at h
              obtain ⟨h1, -, -⟩ := h
              rw [← h1, s3_move_state]
            · rw [if_neg hf] at h
              simp only [Except.ok.injEq, Prod.mk.injEq] at h
              obtain ⟨h1, -, -⟩ := h
              rw [← h1, s3_move_state]

/-- A successful `check_pr_status` leaves the state unchanged or sets it to
`rejected`, `approved` or `staged`. -/
theorem check_pr_status_state (env : Env) (w : World) (t : Tarball)
    (t' : Tarball) (w' : World) (tr : List Effect)
    (h : check_pr_status env w t = Except.ok (t', w', tr)) :
    t'.state = t.state ∨ t'.state = "rejected" ∨ t'.state = "approved" ∨
      t'.state = "staged" := by
  unfold check_pr_status at h
  cases hpr : env.prLookup with
  | some pr =>
      rw [hpr] at h
      dsimp only at h
      by_cases hopen : pr.prState = "open"
      · rw [if_pos hopen] at h
        simp only [Except.ok.injEq, Prod.mk.injEq] at h
        obtain ⟨h1, -, -⟩ := h
        left
        rw [← h1]
      · rw [if_neg hopen] at h
        by_cases hrej : pr.prState = "closed" ∧ pr.merged = false
        · rw [if_pos hrej] at h
          simp only [Except.ok.injEq, Prod.mk.injEq] at h
          obtain ⟨h1, -, -⟩ := h
          rcases mark_new_state_state env t "rejected" (some "staged")
            with hm | hm
          · right
            left
            rw [← h1]
            exact hm
          · left
            rw [← h1]
            exact hm
        · rw [if_neg hrej] at h
          simp only [Except.ok.injEq, Prod.mk.injEq] at h
          obtain ⟨h1, -, -⟩ := h
          rcases mark_new_state_state env t "approved" none with hm | hm
          · right
            right
            left
            rw [← h1]
            exact hm
          · left
            rw [← h1]
            exact hm
  | none =>
      rw [hpr] at h
      dsimp only at h
      by_cases hbr : env.branchExists = true
      · rw [if_pos hbr] at h
        simp only [Except.ok.injEq, Prod.mk.injEq] at h
        obtain ⟨h1, -, -⟩ := h
        by_cases hok : (s3_move_metadata_file env t "staged").1 = true
        · right
          right
          right
          simp only [hok, if_true] at h1
          rw [← h1]
        · left
          simp [hok] at h1
          rw [← h1, s3_move_state]
      · rw [if_neg hbr] at h
        simp at h

/-- C4: (1) for a record in the review-requested (`pr_opened`) state whose
branch exists but has no associated PR, `check_pr_status` deletes the
`heads/<filename>` ref and — with the S3 copy confirming with the recorded
ETag — the record's state becomes `staged` and its metadata object is
relocated to the `staged` prefix; (2) this is the only state regression any
handler performs: whenever a dispatched handler returns with a state of
strictly smaller lifecycle rank, the old state was `pr_opened` and the new
one is `staged`. -/
theorem check_pr_status_self_heal_only_regression :
    (∀ (env : Env) (w : World) (t : Tarball),
      env.prLookup = none → env.branchExists = true →
      env.copyResult t.remote_metadata_path
          (replaceFirst t.remote_metadata_path t.state "staged") =
        CopyOutcome.result t.s3_object_etag →
      ∃ t' tr, check_pr_status env w t = Except.ok (t', w, tr) ∧
        t'.state = "staged" ∧
        Effect.deleteRef ("heads/" ++ pyBasename t.remote_tarball_path) ∈ tr ∧
        t'.remote_metadata_path =
          replaceFirst t.remote_metadata_path t.state "staged") ∧
    (∀ (env : Env) (w : World) (t : Tarball) (t' : Tarball) (w' : World)
        (tr : List Effect),
      run_handler env w t = Except.ok (t', w', tr) →
      stateRank t'.state < stateRank t.state →
      t.state = "pr_opened" ∧ t'.state = "staged") := by
  constructor
  · intro env w t hpr hbr hcopy
    simp only [check_pr_status, hpr, hbr, s3_move_metadata_file, hcopy,
      if_true, if_pos rfl]
    exact ⟨_, _, rfl, rfl, by simp, rfl⟩
  · intro env w t t' w' tr h hlt
    unfold run_handler at h
    by_cases h0 : t.state = ""
    · rw [if_pos h0] at h
      simp only [Except.ok.injEq, Prod.mk.injEq] at h
      obtain ⟨h1, -, -⟩ := h
      rw [← h1] at hlt
      exact absurd hlt (lt_irrefl _)
    · rw [if_neg h0] at h
      by_cases h1 : t.state = "new"
      · rw [if_pos h1] at h
        rcases handle_new_tarball_state env w t t' w' tr h with he | hn
        · rw [he] at hlt
          exact absurd hlt (lt_irrefl _)
        · rw [h1] at hn
          have hs : t'.state = "staged" :=
            (Option.some.inj ((show next_state "new" = some "staged"
              from rfl) ▸ hn)).symm
          rw [h1, hs] at hlt
          exact absurd hlt (by decide)
      · rw [if_neg h1] at h
        by_cases h2 : t.state = "staged"
        · rw [if_pos h2] at h
          have he := open_approval_request_state env w t t' w' tr h
          rw [he] at hlt
          exact absurd hlt (lt_irrefl _)
        · rw [if_neg h2] at h
          by_cases h3 : t.state = "pr_opened"
          · rw [if_pos h3] at h
            rcases check_pr_status_state env w t t' w' tr h
              with he | hc | hc | hc
            · rw [he] at hlt
              exact absurd hlt (lt_irrefl _)
            · rw [h3, hc] at hlt
              exact absurd hlt (by decide)
            · rw [h3, hc] at hlt
              exact absurd hlt (by decide)
            · exact ⟨h3, hc⟩
          · rw [if_neg h3] at h
            by_cases h4 : t.state = "approved"
            · rw [if_pos h4] at h
              rcases ingest_state env w t t' w' tr h with he | hn
              · rw [he] at hlt
                exact absurd hlt (lt_irrefl _)
              · rw [h4] at hn
                have hs : t'.state = "ingested" :=
                  (Option.some.inj ((show next_state "approved" =
                    some "ingested" from rfl) ▸ hn)).symm
                rw [h4, hs] at hlt
                exact absurd hlt (by decide)
            · rw [if_neg h4] at h
              simp at h

/-- C4 witness: the self-healing path applied to a concrete `pr_opened`
record (first conjunct), and the regression characterization applied to the
same concrete run, in which the state does regress from `pr_opened` to
`staged` (second conjunct). -/
theorem check_pr_status_self_heal_only_regression_witness :
    (∃ t' tr, check_pr_status envHeal [] tPr = Except.ok (t', [], tr) ∧
      t'.state = "staged" ∧
      Effect.deleteRef ("heads/" ++ pyBasename tPr.remote_tarball_path) ∈ tr ∧
      t'.remote_metadata_path =
        replaceFirst tPr.remote_metadata_path tPr.state "staged") ∧
    (tPr.state = "pr_opened" ∧ tStaged.state = "staged") :=
  ⟨check_pr_status_self_heal_only_regression.1 envHeal [] tPr rfl rfl rfl,
   check_pr_status_self_heal_only_regression.2 envHeal [] tPr tStaged []
     [Effect.deleteRef "heads/foo.tgz",
      Effect.s3Copy "eessi-staging" "pr_opened/2023.06/foo.tgz.meta.txt"
        "staged/2023.06/foo.tgz.meta.txt",
      Effect.s3Delete "eessi-staging" "pr_opened/2023.06/foo.tgz.meta.txt"]
     rfl (by decide)⟩

/-- No failure issue is created by the git half of the relocation. -/
theorem createIssue_not_in_git_move (env : Env) (t : Tarball)
    (a b br title : String) :
    Effect.createIssue title ∉ git_move_metadata_file env t a b br := by
  unfold git_move_metadata_file
  by_cases h : env.localRepoExists
      (a ++ "/" ++ dropFirstComponent t.remote_metadata_path) = true <;>
    simp [h]

/-- No failure issue is created by the S3 half of the relocation. -/
theorem createIssue_not_in_s3_move (env : Env) (t : Tarball)
    (ns title : String) :
    Effect.createIssue title ∉ (s3_move_metadata_file env t ns).2.2 := by
  unfold s3_move_metadata_file
  cases h : env.copyResult t.remote_metadata_path
      (replaceFirst t.remote_metadata_path t.state ns) with
  | raises => simp [h]
  | noResult => simp [h]
  | result etag => by_cases h2 : t.s3_object_etag = etag <;> simp [h, h2]

/-- C8 counterexample: on a record whose relocation `pr_opened → approved`
has already completed successfully (the in-memory state is `approved` and
the metadata object sits under the `approved` key), invoking the
object-store move again — against an S3 client with the real service's
behaviour, where copying an object onto its own key fails — returns
failure, not success, so the relocation is not idempotent as claimed. -/
theorem relocation_second_invocation_fails :
    (mark_new_state envS3Real tPr "approved" none).1.state = "approved" ∧
    (mark_new_state envS3Real tPr "approved" none).1.remote_metadata_path =
      "approved/2023.06/foo.tgz.meta.txt" ∧
    (s3_move_metadata_file envS3Real
        (mark_new_state envS3Real tPr "approved" none).1 "approved").1 =
      false :=
  ⟨rfl, rfl, rfl⟩

/-- C8 (amended): after a relocation to `ns` has completed successfully,
re-running it is idempotent only on the repository-mirror half — with the
source path gone, `git_move_metadata_file` only checks out the branch and
moves nothing.  The object-store half addresses its own key (source equals
destination after `replaceFirst` of `ns` by `ns`), and a second
`s3_move_metadata_file` either reports failure and leaves the record
unchanged, or — if the copy were to confirm with the recorded ETag —
deletes the object at that very key. -/
theorem relocation_retry_behavior (env env2 : Env) (t t1 : Tarball)
    (ns old br : String)
    (hsucc : (s3_move_metadata_file env t ns).1 = true)
    (ht1 : t1 = { (s3_move_metadata_file env t ns).2.1 with state := ns })
    (hgit : env2.localRepoExists
        (old ++ "/" ++ dropFirstComponent t1.remote_metadata_path) = false) :
    git_move_metadata_file env2 t1 old ns br = [Effect.gitCheckout br] ∧
    replaceFirst t1.remote_metadata_path t1.state ns =
      t1.remote_metadata_path ∧
    ((s3_move_metadata_file env2 t1 ns).1 = true →
      Effect.s3Delete env2.bucket t1.remote_metadata_path ∈
        (s3_move_metadata_file env2 t1 ns).2.2) ∧
    ((s3_move_metadata_file env2 t1 ns).1 = false →
      (s3_move_metadata_file env2 t1 ns).2.1 = t1) := by
  have hstate : t1.state = ns := by rw [ht1]
  refine ⟨?_, ?_, ?_, ?_⟩
  · unfold git_move_metadata_file
    simp [hgit]
  · rw [hstate, replaceFirst_self]
  · intro hok
    cases hc : env2.copyResult t1.remote_metadata_path
        (replaceFirst t1.remote_metadata_path t1.state ns) with
    | raises => simp [s3_move_metadata_file, hc] at hok
    | noResult => simp [s3_move_metadata_file, hc] at hok
    | result etag =>
        by_cases he : t1.s3_object_etag = etag
        · simp [s3_move_metadata_file, hc, he]
        · simp [s3_move_metadata_file, hc, he] at hok
  · intro hfail
    cases hc : env2.copyResult t1.remote_metadata_path
        (replaceFirst t1.remote_metadata_path t1.state ns) with
    | raises => simp [s3_move_metadata_file, hc]
    | noResult => simp [s3_move_metadata_file, hc]
    | result etag =>
        by_cases he : t1.s3_object_etag = etag
        · simp [s3_move_metadata_file, hc, he] at hfail
        · simp [s3_move_metadata_file, hc, he]

/-- C8 witness: the retry-behaviour theorem applied to the concrete record
whose relocation to `approved` has completed against the real-S3-style
client (its second store move then reports failure and leaves the record
unchanged, by the counterexample). -/
theorem relocation_retry_behavior_witness :
    git_move_metadata_file envS3Real tBase "pr_opened" "approved" "main" =
      [Effect.gitCheckout "main"] ∧
    replaceFirst tBase.remote_metadata_path tBase.state "approved" =
      tBase.remote_metadata_path ∧
    ((s3_move_metadata_file envS3Real tBase "approved").1 = true →
      Effect.s3Delete envS3Real.bucket tBase.remote_metadata_path ∈
        (s3_move_metadata_file envS3Real tBase "approved").2.2) ∧
    ((s3_move_metadata_file envS3Real tBase "approved").1 = false →
      (s3_move_metadata_file envS3Real tBase "approved").2.1 = tBase) :=
  relocation_retry_behavior envS3Real envS3Real tPr tBase "approved"
    "pr_opened" "main" rfl (by decide) rfl

/-- C7 counterexample: with an open-issue list that is empty, an exception
raised while building the contents overview leaves the issue list empty —
`open_approval_request` returns normally (the `exception` flag skips the
second `try` block body) and creates no failure-report issue, contradicting
the claim that any exception in the overview-or-request path produces one. -/
theorem open_approval_overview_exception_no_issue :
    envOverviewRaises.overviewOutcome = Except.error PyExc.otherError ∧
    okWorld (open_approval_request envOverviewRaises [] tStaged) = some [] :=
  ⟨rfl, rfl⟩

/-- C7 (amended): for a `staged` record, `open_approval_request` never
propagates an exception, but only exceptions raised while opening the
review request (after a successful overview) create the failure-report
issue: an exception during the overview build returns with the issue list
unchanged and no issue effect; an exception during request creation adds
the issue exactly once — a second invocation while the open issue exists
skips creation, so two invocations create exactly one issue. -/
theorem open_approval_issue_behavior (env : Env) (w : World) (t : Tarball)
    (hstate : t.state = "staged") :
    (∀ e, env.overviewOutcome = Except.error e →
      ∃ t1 tr, open_approval_request env w t = Except.ok (t1, w, tr) ∧
        ∀ title, Effect.createIssue title ∉ tr) ∧
    (∀ s, env.overviewOutcome = Except.ok s → env.createPullOk = false →
      overviewIssueTitle t ∉ w →
      ∃ t1 tr, open_approval_request env w t =
          Except.ok (t1, w ++ [overviewIssueTitle t], tr) ∧
        Effect.createIssue (overviewIssueTitle t) ∈ tr ∧
        okWorld (open_approval_request env (w ++ [overviewIssueTitle t]) t1) =
          some (w ++ [overviewIssueTitle t])) := by
  have hns : next_state t.state = some "pr_opened" := by
    rw [hstate]
    decide
  constructor
  · intro e he
    refine ⟨(s3_move_metadata_file env t "pr_opened").2.1,
      git_move_metadata_file env t t.state "pr_opened"
          (pyBasename t.remote_tarball_path) ++
        (s3_move_metadata_file env t "pr_opened").2.2, ?_, ?_⟩
    · unfold open_approval_request
      rw [hns]
      dsimp only
      rw [he]
    · intro title
      rw [List.mem_append]
      rintro (hmem | hmem)
      · exact createIssue_not_in_git_move env t t.state "pr_opened"
          (pyBasename t.remote_tarball_path) title hmem
      · exact createIssue_not_in_s3_move env t "pr_opened" title hmem
  · intro s hs hcp hnot
    have hfilter : (w.filter
        (fun i => i = overviewIssueTitle t)).length = 0 := by
      rw [List.length_eq_zero, List.filter_eq_nil]
      intro a ha
      simp only [decide_eq_true_eq]
      intro heq
      exact hnot (heq ▸ ha)
    have hcp' : ¬ (env.createPullOk = true) := by
      rw [hcp]
      simp
    refine ⟨(s3_move_metadata_file env t "pr_opened").2.1,
      git_move_metadata_file env t t.state "pr_opened"
          (pyBasename t.remote_tarball_path) ++
        (s3_move_metadata_file env t "pr_opened").2.2 ++
        [Effect.createIssue (overviewIssueTitle t)], ?_, ?_, ?_⟩
    · unfold open_approval_request
      rw [hns]
      dsimp only
      rw [hs]
      dsimp only
      rw [if_neg hcp', if_pos hfilter]
    · simp
    · have hrtp : overviewIssueTitle
          ((s3_move_metadata_file env t "pr_opened").2.1) =
          overviewIssueTitle t := by
        unfold overviewIssueTitle
        rw [s3_move_rtp]
      have hst1 : next_state
          ((s3_move_metadata_file env t "pr_opened").2.1).state =
          some "pr_opened" := by
        rw [s3_move_state, hstate]
        decide
      have hmem : overviewIssueTitle t ∈ w ++ [overviewIssueTitle t] := by
        simp
      have hfilter1 : ¬ (((w ++ [overviewIssueTitle t]).filter
          (fun i => i = overviewIssueTitle
            ((s3_move_metadata_file env t "pr_opened").2.1))).length = 0) := by
        rw [hrtp]
        intro h0
        rw [List.length_eq_zero, List.filter_eq_nil] at h0
        have := h0 (overviewIssueTitle t) hmem
        simp at this
      unfold open_approval_request
      rw [hst1]
      dsimp only
      rw [hs]
      dsimp only
      rw [if_neg hcp', if_neg hfilter1]
      rfl

/-- C7 witness: the amended issue behaviour applied to a concrete `staged`
record, an environment where opening the pull request raises, and an
initially empty issue list. -/
theorem open_approval_issue_behavior_witness :
    ∃ t1 tr, open_approval_request envPullFail [] tStaged =
        Except.ok (t1, [] ++ [overviewIssueTitle tStaged], tr) ∧
      Effect.createIssue (overviewIssueTitle tStaged) ∈ tr ∧
      okWorld (open_approval_request envPullFail
          ([] ++ [overviewIssueTitle tStaged]) t1) =
        some ([] ++ [overviewIssueTitle tStaged]) :=
  (open_approval_issue_behavior envPullFail [] tStaged rfl).2 "contents"
    rfl rfl (by decide)

/-- The length of a concatenation of strings is the sum of the lengths. -/
theorem strlen_append (s t : String) :
    (s ++ t).length = s.length + t.length := by
  show (s.data ++ t.data).length = s.data.length + t.data.length
  rw [List.length_append]

/-- C6: the contents-overview builder uses the full sorted listing below
100 entries and the grouped summary at 100 or more; whenever the assembled
overview exceeds 60000 characters it is cut at 60000 characters and the
truncation notice is appended, making its length exactly 60000 plus the
notice length; and in every case the result is at most 60000 plus the
notice length. -/
theorem get_contents_overview_threshold_and_truncation (url : String)
    (members : List TarMember) :
    (members.length < 100 →
      assembledOverview url members =
        overviewText url members.length fullListingDesc
          (pySorted (members.map TarMember.path))) ∧
    (100 ≤ members.length →
      assembledOverview url members =
        overviewText url members.length summaryDesc
          (summarizedList members)) ∧
    ((assembledOverview url members).length > 60000 →
      get_contents_overview url members =
        String.mk ((assembledOverview url members).data.take 60000) ++
          truncationNotice ∧
      (get_contents_overview url members).length =
        60000 + truncationNotice.length) ∧
    (get_contents_overview url members).length ≤
      60000 + truncationNotice.length := by
  have htrunc : (assembledOverview url members).length > 60000 →
      get_contents_overview url members =
        String.mk ((assembledOverview url members).data.take 60000) ++
          truncationNotice ∧
      (get_contents_overview url members).length =
        60000 + truncationNotice.length := by
    intro h
    have h1 : get_contents_overview url members =
        String.mk ((assembledOverview url members).data.take 60000) ++
          truncationNotice := by
      unfold get_contents_overview
      rw [if_pos h]
    refine ⟨h1, ?_⟩
    rw [h1, strlen_append]
    have h2 : (String.mk
        ((assembledOverview url members).data.take 60000)).length = 60000 := by
      show ((assembledOverview url members).data.take 60000).length = 60000
      rw [List.length_take]
      exact min_eq_left (le_of_lt h)
    rw [h2]
  refine ⟨?_, ?_, htrunc, ?_⟩
  · intro h
    unfold assembledOverview
    rw [if_pos h]
  · intro h
    unfold assembledOverview
    rw [if_neg (not_lt.mpr h)]
  · by_cases h : (assembledOverview url members).length > 60000
    · rw [(htrunc h).2]
    · have h2 : get_contents_overview url members =
          assembledOverview url members := by
        unfold get_contents_overview
        rw [if_neg h]
      rw [h2]
      calc (assembledOverview url members).length ≤ 60000 := not_lt.mp h
        _ ≤ 60000 + truncationNotice.length := Nat.le_add_right _ _

/-- The assembled overview of the single-member `msLong` listing, written
as header, the 60100-character path and the closing fence. -/
theorem msLong_assembled :
    assembledOverview "u" msLong =
      ("Total number of items in the tarball: 1\nURL to the tarball: u\nFull listing of the contents of the tarball:\n```\n" ++
        String.mk (List.replicate 60100 'a')) ++ "\n```" := rfl

/-- The assembled overview of `msLong` exceeds the 60000-character cap. -/
theorem msLong_big : (assembledOverview "u" msLong).length > 60000 := by
  rw [msLong_assembled, strlen_append, strlen_append]
  have hp : (String.mk (List.replicate 60100 'a')).length = 60100 := by
    show (List.replicate 60100 'a').length = 60100
    exact List.length_replicate _ _
  rw [hp]
  omega

/-- C6 witness: the threshold-and-truncation theorem applied at a concrete
99-entry listing (full listing), a concrete 100-entry listing (grouped
summary) and a concrete listing whose assembled overview exceeds 60000
characters (truncated with the notice appended). -/
theorem get_contents_overview_threshold_witness :
    assembledOverview "u" ms99 =
      overviewText "u" ms99.length fullListingDesc
        (pySorted (ms99.map TarMember.path)) ∧
    assembledOverview "u" ms100 =
      overviewText "u" ms100.length summaryDesc (summarizedList ms100) ∧
    get_contents_overview "u" msLong =
      String.mk ((assembledOverview "u" msLong).data.take 60000) ++
        truncationNotice :=
  ⟨(get_contents_overview_threshold_and_truncation "u" ms99).1 (by decide),
   (get_contents_overview_threshold_and_truncation "u" ms100).2.1
      (by decide),
   ((get_contents_overview_threshold_and_truncation "u" msLong).2.2.1
      msLong_big).1⟩

end EessiIngestion
